import Mathlib

/-!
Verification of the wall decoration-grid / cutting subsystem and the
floor-grid click coordinator.

The embedding follows the C++ sources:
* the `AWall` header (decoration grid, placement pipeline, coordinate
  conversion helpers, the inline bodies of `FindEdge`,
  `GridToDecorationCoord` and the constant `kCellSize`);
* `floor_grid.cpp` (the `AFloorGrid` constructor, `Initialize` and
  `HandleClick` bodies).

Member-function bodies of `AWall` that are only declared in the header
(the placement pipeline, the grid queries, the world/grid converters) are
modelled from the specification; each such definition carries a doc
comment starting with `Modelled from the spec:`.

Machine integers are embedded as `Int`; C++ `int32` division truncates
toward zero, which is `Int.tdiv`.  World coordinates are embedded as `ℚ`.
-/

/- ============================================================
   Occupation states and the per-edge decoration grid
   ============================================================ -/

/-- Occupation state of a single decoration-grid cell, from `wall_enums`:
`WallGridOccupation` with values for free, occupied, door and window
cells. -/
inductive WallGridOccupation
  | kFree
  | kOccupied
  | kDoor
  | kWindow
  deriving DecidableEq, Repr

/-- Modelled from the spec: `wall_data::DecorationGrid` (struct only
declared in the header).  A two-dimensional mapping from integer cell
coordinates to an occupation state, with explicit width and height. -/
structure DecorationGrid where
  width : Int
  height : Int
  cells : Int → Int → WallGridOccupation

/-- Modelled from the spec: `AWall::IsValidGridCoordinate` (body not in
the sources).  Bounds check of a cell against the grid width/height; no
wraparound, no clamping. -/
def IsValidGridCoordinate (g : DecorationGrid) (c : Int × Int) : Bool :=
  decide (0 ≤ c.1) && decide (c.1 < g.width) &&
    decide (0 ≤ c.2) && decide (c.2 < g.height)

/-- The cell rectangle `[start, start + size)`, as a list of cells. -/
def rectCells (start : Int × Int) (size : Nat × Nat) : List (Int × Int) :=
  (List.range size.1).flatMap fun (i : Nat) =>
    (List.range size.2).map fun (j : Nat) => (start.1 + (i : Int), start.2 + (j : Int))

/-- Membership of a cell in the rectangle `[start, start + size)`, as a
proposition. -/
def inRect (start : Int × Int) (size : Nat × Nat) (c : Int × Int) : Prop :=
  start.1 ≤ c.1 ∧ c.1 < start.1 + size.1 ∧
    start.2 ≤ c.2 ∧ c.2 < start.2 + size.2

instance (start : Int × Int) (size : Nat × Nat) (c : Int × Int) :
    Decidable (inRect start size c) := by
  unfold inRect; infer_instance

/-- Modelled from the spec: `AWall::IsAreaFree` (body not in the
sources).  True only if every cell of the rectangle is a valid coordinate
and currently free. -/
def IsAreaFree (g : DecorationGrid) (start : Int × Int) (size : Nat × Nat) : Bool :=
  (rectCells start size).all fun c =>
    IsValidGridCoordinate g c && decide (g.cells c.1 c.2 = WallGridOccupation.kFree)

/-- Modelled from the spec: `AWall::MarkAreaOccupied` (body not in the
sources).  Writes the occupation kind into every cell of the rectangle;
it does not re-validate. -/
def MarkAreaOccupied (g : DecorationGrid) (start : Int × Int) (size : Nat × Nat)
    (occupation_type : WallGridOccupation) : DecorationGrid :=
  { g with cells := fun x y =>
      if inRect start size (x, y) then occupation_type else g.cells x y }

theorem mem_rectCells {start : Int × Int} {size : Nat × Nat} {c : Int × Int} :
    c ∈ rectCells start size ↔ inRect start size c := by
  constructor
  · intro h
    obtain ⟨i, hi, hmem⟩ := List.mem_flatMap.mp h
    obtain ⟨j, hj, heq⟩ := List.mem_map.mp hmem
    rw [List.mem_range] at hi hj
    subst heq
    simp only [inRect]
    omega
  · intro h
    obtain ⟨cx, cy⟩ := c
    simp only [inRect] at h
    apply List.mem_flatMap.mpr
    refine ⟨(cx - start.1).toNat, ?_, ?_⟩
    · rw [List.mem_range]; omega
    · apply List.mem_map.mpr
      refine ⟨(cy - start.2).toNat, ?_, ?_⟩
      · rw [List.mem_range]; omega
      · rw [Prod.ext_iff]
        constructor <;> simp <;> omega

theorem isAreaFree_iff (g : DecorationGrid) (start : Int × Int) (size : Nat × Nat) :
    IsAreaFree g start size = true ↔
      ∀ c : Int × Int, inRect start size c →
        IsValidGridCoordinate g c = true ∧
          g.cells c.1 c.2 = WallGridOccupation.kFree := by
  simp only [IsAreaFree, List.all_eq_true, Bool.and_eq_true, decide_eq_true_eq]
  constructor
  · intro h c hc
    exact h c (mem_rectCells.mpr hc)
  · intro h c hc
    exact h c (mem_rectCells.mp hc)

/- ============================================================
   Wall cuts and the placement pipeline
   ============================================================ -/

/-- Modelled from the spec: `wall_data::WallCut` (struct only declared in
the header).  A validated rectangular opening: target edge, start cell,
footprint size and opening kind. -/
structure WallCut where
  edge : Int
  start : Int × Int
  size : Nat × Nat
  kind : WallGridOccupation
  deriving DecidableEq, Repr

/-- Modelled from the spec: `wall_data::PlacementResult` (struct only
declared in the header).  Outcome of a placement attempt: success flag
and the resulting cut, if any. -/
structure PlacementResult where
  success : Bool
  cut : Option WallCut
  deriving DecidableEq, Repr

/-- The per-wall mutable state the placement pipeline touches: one
decoration grid per edge and the recorded cut list. -/
structure WallState where
  grids : Int → DecorationGrid
  cuts : List WallCut

/-- The footprint of a recorded cut, as the list of its cells. -/
def footprint (cut : WallCut) : List (Int × Int) := rectCells cut.start cut.size

/-- Modelled from the spec: `AWall::SaveCut` (body not in the sources).
Appends the validated cut to the per-edge cut list; the only mutation
point of the authoritative cut history. -/
def SaveCut (st : WallState) (cut : WallCut) : WallState :=
  { st with cuts := st.cuts ++ [cut] }

/-- Modelled from the spec: `AWall::TryPlaceObject` (body not in the
sources).  Validates the requested footprint with `IsAreaFree`; on
success marks the area with the opening kind and records the cut via
`SaveCut`; on failure returns a failed result and leaves the state
untouched. -/
def TryPlaceObject (st : WallState) (edge : Int) (start : Int × Int)
    (size : Nat × Nat) (kind : WallGridOccupation) : PlacementResult × WallState :=
  if IsAreaFree (st.grids edge) start size then
    let cut : WallCut := ⟨edge, start, size, kind⟩
    (⟨true, some cut⟩,
      SaveCut
        { st with grids := fun e =>
            if e = edge then MarkAreaOccupied (st.grids edge) start size kind
            else st.grids e }
        cut)
  else (⟨false, none⟩, st)

/-- Modelled from the spec: `AWall::TryPlaceWindow` — placement with the
window opening kind. -/
def TryPlaceWindow (st : WallState) (edge : Int) (start : Int × Int)
    (size : Nat × Nat) : PlacementResult × WallState :=
  TryPlaceObject st edge start size WallGridOccupation.kWindow

/-- Modelled from the spec: `AWall::TryPlaceDoor` — placement with the
door opening kind. -/
def TryPlaceDoor (st : WallState) (edge : Int) (start : Int × Int)
    (size : Nat × Nat) : PlacementResult × WallState :=
  TryPlaceObject st edge start size WallGridOccupation.kDoor

/-- One user placement request: door or window, target edge, start cell
and footprint size. -/
structure PlacementRequest where
  is_door : Bool
  edge : Int
  start : Int × Int
  size : Nat × Nat
  deriving DecidableEq, Repr

/-- Applies one placement request to the wall state, keeping the state
resulting from `TryPlaceDoor` or `TryPlaceWindow`. -/
def applyRequest (st : WallState) (r : PlacementRequest) : WallState :=
  if r.is_door then (TryPlaceDoor st r.edge r.start r.size).2
  else (TryPlaceWindow st r.edge r.start r.size).2

/-- Runs a sequence of placement requests against a wall state. -/
def runRequests (st : WallState) (rs : List PlacementRequest) : WallState :=
  rs.foldl applyRequest st

/-- Two cuts have disjoint rectangular footprints. -/
def cutsDisjoint (c1 c2 : WallCut) : Prop :=
  ∀ p : Int × Int, p ∈ footprint c1 → p ∉ footprint c2

/-- A wall state before any placement: per-edge grids, no recorded
cuts. -/
def initialWallState (grids : Int → DecorationGrid) : WallState := ⟨grids, []⟩

/-- The inductive invariant of the placement pipeline: every cell of the
footprint of a recorded cut is non-free in the grid of the edge the cut
was recorded on. -/
def MarkedInv (st : WallState) : Prop :=
  ∀ cut ∈ st.cuts, ∀ p ∈ footprint cut,
    (st.grids cut.edge).cells p.1 p.2 ≠ WallGridOccupation.kFree

/-- The pairwise non-overlap property of the recorded cut list. -/
def CutsPairwiseDisjoint (st : WallState) : Prop :=
  st.cuts.Pairwise fun c1 c2 => c1.edge = c2.edge → cutsDisjoint c1 c2

/- ============================================================
   The placement invariants (claims C1, C2) and grid queries (C3, C4)
   ============================================================ -/

theorem tryPlaceObject_preserves (st : WallState) (edge : Int) (start : Int × Int)
    (size : Nat × Nat) (kind : WallGridOccupation)
    (hk : kind ≠ WallGridOccupation.kFree)
    (hm : MarkedInv st) (hp : CutsPairwiseDisjoint st) :
    MarkedInv (TryPlaceObject st edge start size kind).2 ∧
      CutsPairwiseDisjoint (TryPlaceObject st edge start size kind).2 := by
  unfold TryPlaceObject
  by_cases hfree : IsAreaFree (st.grids edge) start size = true
  · rw [if_pos hfree]
    have hfree' := (isAreaFree_iff _ _ _).mp hfree
    constructor
    · intro c hc p hpf
      simp only [SaveCut, List.mem_append, List.mem_singleton] at hc
      rcases hc with hc | rfl
      · by_cases he : c.edge = edge
        · have hold := hm c hc p hpf
          rw [he] at hold
          by_cases hr : inRect start size (p.1, p.2)
          · simp only [SaveCut, MarkAreaOccupied, he]
            simpa [hr] using hk
          · simp only [SaveCut, MarkAreaOccupied, he]
            simpa [hr] using hold
        · simp only [SaveCut, MarkAreaOccupied]
          simpa [he] using hm c hc p hpf
      · have hr : inRect start size (p.1, p.2) := mem_rectCells.mp hpf
        simp only [SaveCut, MarkAreaOccupied]
        simpa [hr] using hk
    · unfold CutsPairwiseDisjoint at hp ⊢
      simp only [SaveCut]
      rw [List.pairwise_append]
      refine ⟨hp, List.pairwise_singleton _ _, ?_⟩
      intro a ha b hb hedge
      rw [List.mem_singleton] at hb
      subst hb
      intro p hpa hpb
      have hfree_p := (hfree' p (mem_rectCells.mp hpb)).2
      have hmarked := hm a ha p hpa
      rw [hedge] at hmarked
      exact hmarked hfree_p
  · rw [if_neg hfree]
    exact ⟨hm, hp⟩

theorem applyRequest_preserves (st : WallState) (r : PlacementRequest)
    (hm : MarkedInv st) (hp : CutsPairwiseDisjoint st) :
    MarkedInv (applyRequest st r) ∧ CutsPairwiseDisjoint (applyRequest st r) := by
  unfold applyRequest TryPlaceDoor TryPlaceWindow
  by_cases hd : r.is_door
  · rw [if_pos hd]
    exact tryPlaceObject_preserves st r.edge r.start r.size _ (by simp) hm hp
  · rw [if_neg hd]
    exact tryPlaceObject_preserves st r.edge r.start r.size _ (by simp) hm hp

theorem runRequests_preserves (rs : List PlacementRequest) (st : WallState)
    (hm : MarkedInv st) (hp : CutsPairwiseDisjoint st) :
    MarkedInv (runRequests st rs) ∧ CutsPairwiseDisjoint (runRequests st rs) := by
  induction rs generalizing st with
  | nil => exact ⟨hm, hp⟩
  | cons r rs ih =>
    have step := applyRequest_preserves st r hm hp
    exact ih (applyRequest st r) step.1 step.2

/-- Claim C1: after any sequence of placement operations (successful ones
mutate the grid via `MarkAreaOccupied` and record the cut via `SaveCut`,
failed ones leave the state unchanged) starting from a wall state with no
recorded cuts, any two distinct recorded cuts that target the same edge
have disjoint rectangular footprints. -/
theorem recorded_cuts_nonoverlapping (grids : Int → DecorationGrid)
    (rs : List PlacementRequest) :
    (runRequests (initialWallState grids) rs).cuts.Pairwise
      (fun c1 c2 => c1.edge = c2.edge → cutsDisjoint c1 c2) := by
  have h := runRequests_preserves rs (initialWallState grids)
    (by intro c hc; simp [initialWallState] at hc)
    (by simp [CutsPairwiseDisjoint, initialWallState])
  exact h.2

/-- Claim C2: a placement attempt that fails its `IsAreaFree` validation
(out-of-bounds footprint or overlap with occupied cells) returns a failed
`PlacementResult`, and the wall state — in particular the occupation state
of every cell of every decoration grid — is unchanged. -/
theorem failed_placement_is_atomic (st : WallState) (edge : Int)
    (start : Int × Int) (size : Nat × Nat) (kind : WallGridOccupation)
    (h : IsAreaFree (st.grids edge) start size = false) :
    (TryPlaceObject st edge start size kind).1.success = false ∧
      (TryPlaceObject st edge start size kind).2 = st ∧
      ∀ e x y, ((TryPlaceObject st edge start size kind).2.grids e).cells x y =
        (st.grids e).cells x y := by
  unfold TryPlaceObject
  rw [if_neg (by simp [h])]
  exact ⟨rfl, rfl, fun _ _ _ => rfl⟩

def exOccupiedGrid : DecorationGrid := ⟨5, 5, fun _ _ => WallGridOccupation.kOccupied⟩

def exWallState : WallState := ⟨fun _ => exOccupiedGrid, []⟩

/-- Witness for claim C2: a concrete failed placement attempt (a 1×1
footprint on a fully occupied 5×5 grid) on which the atomicity theorem
applies. -/
theorem failed_placement_is_atomic_witness :
    IsAreaFree (exWallState.grids 0) (0, 0) (1, 1) = false ∧
      ((TryPlaceObject exWallState 0 (0, 0) (1, 1) WallGridOccupation.kDoor).1.success = false ∧
        (TryPlaceObject exWallState 0 (0, 0) (1, 1) WallGridOccupation.kDoor).2 = exWallState ∧
        ∀ e x y,
          ((TryPlaceObject exWallState 0 (0, 0) (1, 1) WallGridOccupation.kDoor).2.grids e).cells x y =
            (exWallState.grids e).cells x y) :=
  ⟨by decide, failed_placement_is_atomic exWallState 0 (0, 0) (1, 1)
    WallGridOccupation.kDoor (by decide)⟩

/-- Claim C3: `IsAreaFree` returns true if and only if every cell of the
rectangle `[startCell, startCell + size)` is a valid coordinate of the
decoration grid and currently free; any invalid or non-free cell in the
rectangle makes the result false. -/
theorem isAreaFree_correct (g : DecorationGrid) (start : Int × Int) (size : Nat × Nat) :
    IsAreaFree g start size = true ↔
      ∀ c : Int × Int,
        (start.1 ≤ c.1 ∧ c.1 < start.1 + size.1 ∧
          start.2 ≤ c.2 ∧ c.2 < start.2 + size.2) →
          IsValidGridCoordinate g c = true ∧
            g.cells c.1 c.2 = WallGridOccupation.kFree := by
  rw [isAreaFree_iff]
  unfold inRect
  rfl

/-- Claim C4: the coordinate-validity check returns true if and only if
the cell lies in `[0, width) × [0, height)` for the given decoration
grid; out-of-range coordinates are rejected, never wrapped or clamped. -/
theorem isValidGridCoordinate_correct (g : DecorationGrid) (c : Int × Int) :
    IsValidGridCoordinate g c = true ↔
      0 ≤ c.1 ∧ c.1 < g.width ∧ 0 ≤ c.2 ∧ c.2 < g.height := by
  simp [IsValidGridCoordinate, and_assoc]

/- ============================================================
   Coordinate conversion (claims C5, C6, C7)
   ============================================================ -/

/-- From the header: `static const int32 kCellSize = 10` — grid
resolution in centimeters. -/
def kCellSize : Int := 10

/-- Modelled from the spec: `AWall::WorldToGrid` (body not in the
sources).  Projects a world point onto the wall-local grid at the fixed
cell resolution, truncating to the nearest cell below the point (floor,
not round). -/
def WorldToGrid (p : ℚ × ℚ) : Int × Int := (⌊p.1 / 10⌋, ⌊p.2 / 10⌋)

/-- Modelled from the spec: `AWall::GridToWorld` (body not in the
sources).  Maps a grid cell to the world position of its centroid. -/
def GridToWorld (c : Int × Int) : ℚ × ℚ :=
  ((c.1 : ℚ) * 10 + 5, (c.2 : ℚ) * 10 + 5)

/-- Claim C5: for every world point `p` the round trip
`GridToWorld (WorldToGrid p)` is the centroid of the grid cell containing
`p` — the half-open square `[10k, 10k + 10) × [10l, 10l + 10)` that `p`
lies in — hence lies within one cell-width (10) of `p` in each component;
and it returns `p` itself exactly when `p` already is a cell centroid, so
the round trip is lossy at cell granularity.  This holds for all world
points, in particular all in-bounds ones. -/
theorem gridToWorld_worldToGrid_roundtrip (p : ℚ × ℚ) :
    (((WorldToGrid p).1 : ℚ) * 10 ≤ p.1 ∧ p.1 < ((WorldToGrid p).1 : ℚ) * 10 + 10) ∧
      (((WorldToGrid p).2 : ℚ) * 10 ≤ p.2 ∧ p.2 < ((WorldToGrid p).2 : ℚ) * 10 + 10) ∧
      GridToWorld (WorldToGrid p) =
        (((WorldToGrid p).1 : ℚ) * 10 + 5, ((WorldToGrid p).2 : ℚ) * 10 + 5) ∧
      |(GridToWorld (WorldToGrid p)).1 - p.1| < 10 ∧
      |(GridToWorld (WorldToGrid p)).2 - p.2| < 10 ∧
      (GridToWorld (WorldToGrid p) = p ↔
        p = (((WorldToGrid p).1 : ℚ) * 10 + 5, ((WorldToGrid p).2 : ℚ) * 10 + 5)) := by
  obtain ⟨x, y⟩ := p
  have hx1 : (⌊x / 10⌋ : ℚ) ≤ x / 10 := Int.floor_le _
  have hx2 : x / 10 < ⌊x / 10⌋ + 1 := Int.lt_floor_add_one _
  have hy1 : (⌊y / 10⌋ : ℚ) ≤ y / 10 := Int.floor_le _
  have hy2 : y / 10 < ⌊y / 10⌋ + 1 := Int.lt_floor_add_one _
  simp only [WorldToGrid, GridToWorld]
  refine ⟨⟨by linarith, by linarith⟩, ⟨by linarith, by linarith⟩, trivial, ?_, ?_, eq_comm⟩
  · rw [abs_lt]
    constructor <;> linarith
  · rw [abs_lt]
    constructor <;> linarith

/-- From the header (inline body): `AWall::FindEdge`,
`return coords.X / 50;` — C++ `int32` division truncates toward zero,
embedded as `Int.tdiv`. -/
def FindEdge (coords : Int × Int) : Int := Int.tdiv coords.1 50

/-- Integer division truncating toward zero, stated the way the spec
words it: the quotient of the absolute values, carrying the product of
the signs of the operands. -/
def truncatingIntDiv (a b : Int) : Int :=
  a.sign * b.sign * ((a.natAbs / b.natAbs : Nat) : Int)

/-- Claim C6: the edge-bucketing function returns
`coordX / cellsPerEdge` computed by integer division truncating toward
zero, with 50 cells per edge. -/
theorem findEdge_is_truncating_div_by_50 (coords : Int × Int) :
    FindEdge coords = truncatingIntDiv coords.1 50 := by
  obtain ⟨x, y⟩ := coords
  unfold FindEdge truncatingIntDiv
  rcases x with (_ | m) | m
  · simp
  · have h1 : Int.tdiv (Int.ofNat (m + 1)) 50 = Int.ofNat ((m + 1) / 50) := rfl
    have h2 : (Int.ofNat (m + 1)).sign = 1 := rfl
    have h3 : (50 : Int).sign = 1 := rfl
    have h4 : (Int.ofNat (m + 1)).natAbs = m + 1 := rfl
    have h5 : (50 : Int).natAbs = 50 := rfl
    rw [h1, h2, h3, h4, h5, one_mul, one_mul]
    rfl
  · have h1 : Int.tdiv (Int.negSucc m) 50 = -Int.ofNat ((m + 1) / 50) := rfl
    have h2 : (Int.negSucc m).sign = -1 := rfl
    have h3 : (50 : Int).sign = 1 := rfl
    have h4 : (Int.negSucc m).natAbs = m + 1 := rfl
    have h5 : (50 : Int).natAbs = 50 := rfl
    rw [h1, h2, h3, h4, h5, Int.ofNat_eq_natCast]
    ring

/-- From the header (inline body): `AWall::GridToDecorationCoord`,
`return local_coord / 10;` — `FIntPoint` division by a scalar is
componentwise C++ `int32` division, truncating toward zero. -/
def GridToDecorationCoord (local_coord : Int × Int) : Int × Int :=
  (Int.tdiv local_coord.1 10, Int.tdiv local_coord.2 10)

/-- Modelled from the spec: `AWall::CalculateGridSize` (body not in the
sources).  The decoration-grid dimensions are the edge dimensions divided
by the fixed cell resolution `kCellSize`. -/
def CalculateGridSize (edge_dims : Int × Int) : Int × Int :=
  (Int.tdiv edge_dims.1 kCellSize, Int.tdiv edge_dims.2 kCellSize)

/-- Claim C7: the decoration grid uses a fixed resolution of 10
length-units per cell: `kCellSize` is 10, the grid dimensions are the
edge dimensions divided by 10, and the conversion from local wall-grid
coordinates to decoration-grid coordinates divides each component by
10. -/
theorem decoration_grid_cell_resolution :
    kCellSize = 10 ∧
      (∀ c : Int × Int,
        GridToDecorationCoord c = (Int.tdiv c.1 kCellSize, Int.tdiv c.2 kCellSize)) ∧
      (∀ s : Int × Int,
        CalculateGridSize s = (Int.tdiv s.1 10, Int.tdiv s.2 10)) :=
  ⟨rfl, fun _ => rfl, fun _ => rfl⟩

/- ============================================================
   The floor-grid click coordinator (claims C8, C9, C10)
   ============================================================ -/

/-- The edit-tool enumeration from `grid_tool_enums`.  `HandleClick`
names `kPlaceWall`, `kPlaceObject` and `None`; a C++ enum also admits
values outside the named ones, embedded by the `Unrecognized`
constructor. -/
inductive EditTool
  | kPlaceWall
  | kPlaceObject
  | None
  | Unrecognized (code : Int)
  deriving DecidableEq, Repr

/-- World-space position, as in `FVector`. -/
abbrev FVector := ℚ × ℚ × ℚ

/-- An observable action of the floor-grid coordinator: a dispatch into a
subsystem, or a log message at some severity. -/
inductive GridEffect
  | placeWallDispatch (world_point : FVector) (is_pressed : Bool)
  | placeObjectDispatch (world_point : FVector) (is_pressed : Bool)
  | logInfo (category msg : String)
  | logWarning (category msg : String)
  | logError (category msg : String)
  deriving DecidableEq, Repr

/-- Outcome of one coordinator call: either it returns normally having
performed the listed effects, or it dereferences a null subsystem
pointer (`TUniquePtr::operator->` on an empty pointer — undefined
behavior in the C++ source). -/
inductive ClickOutcome
  | ok (effects : List GridEffect)
  | nullDeref
  deriving DecidableEq, Repr

/-- `AFloorGrid` state, from `floor_grid.cpp`: the debug flag and, for
each owned collaborator or subsystem pointer, whether it is non-null. -/
structure AFloorGrid where
  debug : Bool
  has_calculate : Bool
  has_tiles_data : Bool
  has_click : Bool
  has_wall_interactions : Bool
  has_object_interactions : Bool
  has_pathfinder : Bool
  has_rooms_manager : Bool
  deriving DecidableEq, Repr

/-- The `AFloorGrid` constructor: every subsystem pointer null, debug
off. -/
def floorGridCtor : AFloorGrid :=
  ⟨false, false, false, false, false, false, false, false⟩

/-- `AFloorGrid::Initialize` from `floor_grid.cpp`: optionally logs a
debug info line, fetches the lot grid calculator (here: whether the
lookup succeeded), and on a null calculator logs at error severity and
returns without constructing any component; otherwise it constructs the
tile data and all subsystem components.  Returns the new state and the
log effects. -/
def InitializeFloorGrid (st : AFloorGrid) (calculator_found : Bool) :
    AFloorGrid × List GridEffect :=
  let pre := if st.debug then [GridEffect.logInfo "Grid" "StartGrid!"] else []
  if calculator_found then
    ({ st with has_calculate := true, has_tiles_data := true, has_click := true,
               has_wall_interactions := true, has_object_interactions := true,
               has_pathfinder := true, has_rooms_manager := true }, pre)
  else
    (st, pre ++ [GridEffect.logError "FloorGrid" "Failed to get grid calculator for lot key"])

/-- `AFloorGrid::HandleClick` from `floor_grid.cpp`: a switch on the
tool.  `kPlaceWall`/`kPlaceObject` dispatch through the corresponding
subsystem pointer with no null check (a null pointer is a null
dereference); `None` does nothing; any other value logs a warning only
when the debug flag is set.  The state is never mutated. -/
def HandleClick (st : AFloorGrid) (tool : EditTool) (world_point : FVector)
    (is_pressed : Bool) : ClickOutcome :=
  match tool with
  | EditTool.kPlaceWall =>
      if st.has_wall_interactions then
        ClickOutcome.ok [GridEffect.placeWallDispatch world_point is_pressed]
      else ClickOutcome.nullDeref
  | EditTool.kPlaceObject =>
      if st.has_object_interactions then
        ClickOutcome.ok [GridEffect.placeObjectDispatch world_point is_pressed]
      else ClickOutcome.nullDeref
  | EditTool.None => ClickOutcome.ok []
  | EditTool.Unrecognized _ =>
      ClickOutcome.ok
        (if st.debug then [GridEffect.logWarning "GridSystem" "Unhandled tool type"] else [])

/-- The state left behind by an `Initialize` call whose grid-calculator
lookup failed. -/
def failedInitFloorGrid : AFloorGrid := (InitializeFloorGrid floorGridCtor false).1

/-- Counterexample to claim C8 as stated: after a failed initialization
(null grid calculator), `HandleClick` with `kPlaceWall` is not a no-op —
the switch dispatches through the null `wall_interactions_` pointer
(`floor_grid.cpp` line 86 has no null check), a null dereference rather
than a no-op. -/
theorem uninitialized_click_not_noop :
    HandleClick failedInitFloorGrid EditTool.kPlaceWall (0, 0, 0) true =
        ClickOutcome.nullDeref ∧
      HandleClick failedInitFloorGrid EditTool.kPlaceWall (0, 0, 0) true ≠
        ClickOutcome.ok [] :=
  ⟨rfl, by decide⟩

/-- Claim C8 (amended): when the grid calculator lookup fails,
`Initialize` logs the failure at error severity and leaves the
`AFloorGrid` un-initialized — no subsystem component is constructed, the
state is exactly the constructor state — and subsequent `HandleClick`
calls with `None` or an unrecognized tool are no-ops; but the dispatching
tools (`kPlaceWall`, `kPlaceObject`) go through the absent subsystem
pointer unchecked, a null dereference rather than a no-op. -/
theorem failed_init_logs_error_and_leaves_uninitialized
    (p : FVector) (b : Bool) (n : Int) :
    GridEffect.logError "FloorGrid" "Failed to get grid calculator for lot key" ∈
        (InitializeFloorGrid floorGridCtor false).2 ∧
      failedInitFloorGrid = floorGridCtor ∧
      failedInitFloorGrid.has_wall_interactions = false ∧
      failedInitFloorGrid.has_object_interactions = false ∧
      failedInitFloorGrid.has_tiles_data = false ∧
      HandleClick failedInitFloorGrid EditTool.None p b = ClickOutcome.ok [] ∧
      HandleClick failedInitFloorGrid (EditTool.Unrecognized n) p b = ClickOutcome.ok [] ∧
      HandleClick failedInitFloorGrid EditTool.kPlaceWall p b = ClickOutcome.nullDeref ∧
      HandleClick failedInitFloorGrid EditTool.kPlaceObject p b = ClickOutcome.nullDeref := by
  refine ⟨?_, rfl, rfl, rfl, rfl, rfl, rfl, rfl, rfl⟩
  simp [InitializeFloorGrid, floorGridCtor]

/-- Claim C9: for every tool value outside the recognized enumeration,
`HandleClick` returns normally (never terminates the process), performs
no dispatch into any subsystem, and emits a warning if and only if the
debug flag is enabled. -/
theorem unrecognized_tool_warns_iff_debug (st : AFloorGrid) (n : Int)
    (p : FVector) (b : Bool) :
    ∃ effects,
      HandleClick st (EditTool.Unrecognized n) p b = ClickOutcome.ok effects ∧
        (∀ q : FVector, ∀ c : Bool,
          GridEffect.placeWallDispatch q c ∉ effects ∧
            GridEffect.placeObjectDispatch q c ∉ effects) ∧
        ((∃ cat msg, GridEffect.logWarning cat msg ∈ effects) ↔ st.debug = true) := by
  cases h : st.debug with
  | false =>
    refine ⟨[], ?_, ?_, ?_⟩
    · simp [HandleClick, h]
    · simp
    · simp
  | true =>
    refine ⟨[GridEffect.logWarning "GridSystem" "Unhandled tool type"], ?_, ?_, ?_⟩
    · simp [HandleClick, h]
    · simp
    · simp

/-- Claim C10: `HandleClick` with tool `None` does nothing at all for
every state, world point and pressed flag: it returns normally with no
dispatch and no log message — even when the debug flag is enabled — and
`HandleClick` never mutates the coordinator state. -/
theorem none_tool_is_silent_noop (st : AFloorGrid) (p : FVector) (b : Bool) :
    HandleClick st EditTool.None p b = ClickOutcome.ok [] := rfl
